import Mathlib

/-!
# Jobvago discovery-and-dispatch pipeline: a shallow embedding

This file embeds the core of the Jobvago scraper pipeline in Lean and proves
the properties claimed in its specification.

Sources embedded:
* the batching dispatch loop `send_jobs_to_queue`
  (`jobvago-scheduler/function_app.py`, `jobvago-scheduler/run_scraper.py`,
  `jobvago-scraper/run.py` — all three share the same loop shape);
* the pagination state machine `InternshalaScraper.discover_jobs` and the
  per-card extraction loop `InternshalaScraper._parse_page`
  (`jobvago-scheduler/scraper_core/spiders/internshala.py`), together with the
  guarded-salary variant `InternshalaScraper.scrape`
  (`jobvago-scraper/jobvago_scraper/spiders/internshala.py`);
* the strategy factory `scraper_factory` (guarded variant in
  `jobvago-scraper/run.py` / `jobvago-scheduler/function_app.py`, unguarded
  variant in `jobvago-scheduler/run_scraper.py`);
* the orchestrator `main` loops of `jobvago-scheduler/run_scraper.py` and
  `jobvago-scraper/run.py`;
* the `JobItem` pydantic model (`scraper_core/models.py`).

External collaborators (Playwright pages, the Azure Service Bus transport,
pydantic's URL parser) enter as parameters: a page is a function from page
number to the outcome of navigation and parsing; the transport's byte budget
is a capacity together with a per-message size function; exceptions become
`Except` values.
-/

set_option autoImplicit false

namespace Jobvago

/-! ## Batcher / dispatcher

`send_jobs_to_queue` (all three variants) accumulates serialized messages
into a transport envelope.  `envelope.add_message` raises `ValueError` when
adding the message would push the envelope past the transport's size budget;
the loop then sends the full envelope, starts a fresh one, and retries the
add there.  A retry that fails again (a message too large for an empty
envelope) propagates the `ValueError` out of the loop.  After the loop, any
envelope still holding messages is sent once.

We model a serialized record abstractly by its size (`size : α → Nat`) and
the transport budget by `cap : Nat`; an add succeeds exactly when the
envelope's total size stays ≤ `cap`.  Counting capacity (at most C records
per envelope) is the special case `size = fun _ => 1`, `cap = C`.
`Except.error j` is the uncaught `ValueError` on record `j`. -/

/-- The dispatch loop of `send_jobs_to_queue`, with `cur` the current
envelope's contents (in insertion order) and `js` the records still to
process.  The terminal step is the final `if len(current_batch) > 0:
send_messages(current_batch)`. -/
def sendLoop {α : Type} (size : α → Nat) (cap : Nat) :
    List α → List α → Except α (List (List α))
  | cur, [] => .ok (if cur.isEmpty then [] else [cur])
  | cur, j :: js =>
    if (cur.map size).sum + size j ≤ cap then
      sendLoop size cap (cur ++ [j]) js
    else
      -- add_message raised: send the current envelope, start a new one,
      -- and add the record there; a second failure propagates.
      if size j ≤ cap then
        (sendLoop size cap [j] js).map (cur :: ·)
      else
        .error j

/-- `send_jobs_to_queue`: dispatch `jobs`, beginning with a freshly created
empty envelope.  The result is the sequence of envelopes sent, in sending
order, or the record whose `ValueError` escaped. -/
def send_jobs_to_queue {α : Type} (size : α → Nat) (cap : Nat) (jobs : List α) :
    Except α (List (List α)) :=
  sendLoop size cap [] jobs

/-- Invariant of the dispatch loop: if the current envelope is within budget
and every remaining record individually fits an empty envelope, the loop
succeeds, the envelopes sent concatenate to `cur ++ js`, and every envelope
stays within budget. -/
theorem sendLoop_spec {α : Type} (size : α → Nat) (cap : Nat) :
    ∀ (js cur : List α), (cur.map size).sum ≤ cap →
      (∀ j ∈ js, size j ≤ cap) →
      ∃ bs, sendLoop size cap cur js = .ok bs ∧
        bs.flatten = (if cur.isEmpty then [] else [cur]).flatten ++ js ∧
        ∀ b ∈ bs, (b.map size).sum ≤ cap := by
  intro js
  induction js with
  | nil =>
    intro cur hcur _
    refine ⟨if cur.isEmpty then [] else [cur], rfl, by simp, ?_⟩
    intro b hb
    rcases cur with _ | ⟨c, cs⟩
    · simp at hb
    · simp at hb; simpa [hb] using hcur
  | cons j js ih =>
    intro cur hcur hfit
    have hj : size j ≤ cap := hfit j (by simp)
    by_cases hadd : (cur.map size).sum + size j ≤ cap
    · obtain ⟨bs, h1, h2, h3⟩ := ih (cur ++ [j]) (by simpa using hadd)
        (fun x hx => hfit x (by simp [hx]))
      refine ⟨bs, by simpa [sendLoop, hadd] using h1, ?_, h3⟩
      rcases cur with _ | ⟨c, cs⟩ <;> simp_all
    · obtain ⟨bs, h1, h2, h3⟩ := ih [j] (by simpa using hj)
        (fun x hx => hfit x (by simp [hx]))
      refine ⟨cur :: bs, ?_, ?_, ?_⟩
      · simp [sendLoop, hadd, hj, h1, Except.map]
      · rcases cur with _ | ⟨c, cs⟩
        · simp at hadd; omega
        · simp_all
      · intro b hb
        rcases List.mem_cons.mp hb with hb | hb
        · simpa [hb] using hcur
        · exact h3 b hb

/-! ## Discovery state machine

`InternshalaScraper.discover_jobs` (scheduler variant): acquire one page
(`browser.new_page()`), then loop `while page_number <= safety_limit`:
navigate (`page.goto`; any exception breaks the loop), parse the page
(`_parse_page`); an empty parse result breaks the loop (end of results);
otherwise yield the page's records and advance.  After the loop,
`await page.close()`.

The browser collaborator enters as two parameters: `nav n` says whether
`page.goto` succeeds for page `n`, and `parsePage n` is the outcome of
`_parse_page` there — `.ok jobs` for a normal parse (possibly empty),
`.error ()` for an exception that escapes `_parse_page` (e.g. a
non-timeout failure inside `_handle_popups`), which propagates out of
the generator.  The loop returns (records yielded before any exception,
number of pages on which navigation was attempted, whether an exception
escaped). -/

/-- One iteration per unit of `fuel`; `fuel` is the number of loop
iterations the `while page_number <= safety_limit` guard still allows. -/
def discoverLoop {α : Type} (nav : Nat → Bool) (parsePage : Nat → Except Unit (List α)) :
    Nat → Nat → List α × Nat × Bool
  | _, 0 => ([], 0, false)
  | pageNumber, fuel + 1 =>
    if nav pageNumber then
      match parsePage pageNumber with
      | .error _ => ([], 1, true)
      | .ok [] => ([], 1, false)
      | .ok (j :: js) =>
        let rest := discoverLoop nav parsePage (pageNumber + 1) fuel
        ((j :: js) ++ rest.1, rest.2.1 + 1, rest.2.2)
    else
      ([], 1, false)

/-- The page-lifecycle events of one `discover_jobs` run. -/
inductive PageEvent where
  | opened
  | closed
deriving DecidableEq, Repr

/-- Outcome of one `discover_jobs` call. -/
structure DiscoverResult (α : Type) where
  /-- Records yielded to the consumer, in discovery order. -/
  records : List α
  /-- Pages on which `page.goto` was attempted. -/
  pagesFetched : Nat
  /-- Whether an exception escaped the pagination loop. -/
  raised : Bool
  /-- Page acquisition/release events, in order. -/
  events : List PageEvent
deriving DecidableEq, Repr

/-- `discover_jobs`: open one page, run the pagination loop starting at
page 1 with the `while` guard allowing `safetyLimit` iterations, then close
the page.  `page.close()` is the straight-line statement after the loop, so
it runs exactly when no exception escaped the loop — there is no
`try/finally` around the loop in the source. -/
def discover_jobs {α : Type} (safetyLimit : Nat) (nav : Nat → Bool)
    (parsePage : Nat → Except Unit (List α)) : DiscoverResult α :=
  let r := discoverLoop nav parsePage 1 safetyLimit
  { records := r.1
    pagesFetched := r.2.1
    raised := r.2.2
    events := PageEvent.opened :: (if r.2.2 then [] else [PageEvent.closed]) }

/-- Navigation is attempted on at most `fuel` pages. -/
theorem discoverLoop_pages_le {α : Type} (nav : Nat → Bool)
    (parsePage : Nat → Except Unit (List α)) :
    ∀ (fuel pageNumber : Nat), (discoverLoop nav parsePage pageNumber fuel).2.1 ≤ fuel := by
  intro fuel
  induction fuel with
  | zero => intro page; simp [discoverLoop]
  | succ n ih =>
    intro page
    simp only [discoverLoop]
    by_cases h : nav page
    · simp only [h, if_true]
      rcases hp : parsePage page with e | l
      · simp
      · rcases l with _ | ⟨j, js⟩
        · simp
        · simpa using ih (page + 1)
    · simp [h]

/-- When every navigation succeeds and every page parses to at least one
record, the loop spends all its fuel: one navigation per allowed iteration. -/
theorem discoverLoop_pages_eq {α : Type} (nav : Nat → Bool)
    (parsePage : Nat → Except Unit (List α))
    (hnav : ∀ n, nav n = true)
    (hne : ∀ n, ∃ j js, parsePage n = .ok (j :: js)) :
    ∀ (fuel pageNumber : Nat), (discoverLoop nav parsePage pageNumber fuel).2.1 = fuel := by
  intro fuel
  induction fuel with
  | zero => intro page; simp [discoverLoop]
  | succ n ih =>
    intro page
    obtain ⟨j, js, hp⟩ := hne page
    simp [discoverLoop, hnav page, hp, ih (page + 1)]

/-- If no parse ever raises, no exception escapes the loop. -/
theorem discoverLoop_no_raise {α : Type} (nav : Nat → Bool)
    (parsePage : Nat → Except Unit (List α))
    (hok : ∀ n, parsePage n ≠ .error ()) :
    ∀ (fuel pageNumber : Nat), (discoverLoop nav parsePage pageNumber fuel).2.2 = false := by
  intro fuel
  induction fuel with
  | zero => intro page; simp [discoverLoop]
  | succ n ih =>
    intro page
    simp only [discoverLoop]
    by_cases h : nav page
    · simp only [h, if_true]
      rcases hp : parsePage page with e | l
      · exact absurd hp (by simpa using hok page)
      · rcases l with _ | ⟨j, js⟩
        · simp
        · simpa using ih (page + 1)
    · simp [h]

/-! ## JobItem (`scraper_core/models.py`)

A pydantic `BaseModel` with required fields `title`, `company_name`,
`location`, `original_url`, `source`, optional `raw_salary_text`,
`description`, `skills`, `posted_date`, and `scraped_at` defaulting to the
construction time.  `original_url : HttpUrl` is the only field with a
validator beyond its type: pydantic accepts exactly absolute `http`/`https`
URLs with a non-empty host, so a relative path fails construction.  The
`str` fields have no length constraint (the empty string is accepted), and
the model is not declared `frozen`.  Timestamps are modelled as `Nat`. -/

structure JobItem where
  title : String
  company_name : String
  location : String
  raw_salary_text : Option String := none
  original_url : String
  description : Option String := none
  skills : Option (List String) := none
  posted_date : Option Nat := none
  scraped_at : Nat
  source : String
deriving DecidableEq, Repr

/-- Model of pydantic's `HttpUrl` acceptance: an `http://` or `https://`
scheme followed by a non-empty remainder (the host).  Stated over the
character list to keep prefix reasoning elementary. -/
def isAbsoluteHttpUrl (s : String) : Bool :=
  ("http://".data.isPrefixOf s.data && decide (7 < s.data.length)) ||
  ("https://".data.isPrefixOf s.data && decide (8 < s.data.length))

/-- `JobItem(...)`: pydantic runs the `HttpUrl` validation on construction
and raises `ValidationError` when it fails; the other arguments are stored
as given. -/
def mkJobItem (title company_name location : String) (raw_salary_text : Option String)
    (original_url : String) (source : String) (scraped_at : Nat) :
    Except String JobItem :=
  if isAbsoluteHttpUrl original_url then
    .ok { title := title, company_name := company_name, location := location,
          raw_salary_text := raw_salary_text, original_url := original_url,
          source := source, scraped_at := scraped_at }
  else
    .error ("invalid URL: " ++ original_url)

/-! ## Per-card extraction (`_parse_page` / `scrape`)

A job card is the bundle of DOM lookups the extraction body performs; each
lookup either returns its text or raises (modelled `Except Unit`).
`get_attribute("href")` returns `Optional[str]`: `none` means the attribute
is absent (Python `None`, which an f-string renders as `"None"`). -/

structure Card where
  /-- `inner_text` of `.job-internship-name a`. -/
  title : Except Unit String
  /-- `get_attribute "href"` on the same element. -/
  href : Except Unit (Option String)
  /-- `inner_text` of `p.company-name`. -/
  company : Except Unit String
  /-- `inner_text` of each `p.locations a`. -/
  locations : Except Unit (List String)
  /-- `inner_text` of `.row-1-item span.desktop`, absent when the card has
  no salary element. -/
  salary : Except Unit String

/-- Python's `f"...{x}"` on an `Optional[str]`. -/
def pyStrOption : Option String → String
  | some s => s
  | none => "None"

/-- The body of the per-card `try` in the scheduler variant
(`scraper_core/spiders/internshala.py`, `_parse_page`): the salary lookup
runs unguarded, so its failure — like any other lookup failure or a
`ValidationError` from `JobItem(...)` — is the card's failure. -/
def extract_card_scheduler (scraped_at : Nat) (c : Card) : Except Unit JobItem := do
  let titleText ← c.title
  let relativeUrl ← c.href
  let companyName ← c.company
  let locs ← c.locations
  let salaryText ← c.salary
  match mkJobItem titleText.trim companyName (String.intercalate ", " locs)
      (some salaryText.trim) ("https://internshala.com" ++ pyStrOption relativeUrl)
      "internshala" scraped_at with
  | .ok j => .ok j
  | .error _ => .error ()

/-- The body of the per-card `try` in the scraper variant
(`jobvago_scraper/spiders/internshala.py`, `scrape`): the salary lookup is
wrapped in its own `try/except`, so its failure leaves
`raw_salary_text = None` and the record is still built. -/
def extract_card_scraper (scraped_at : Nat) (c : Card) : Except Unit JobItem := do
  let titleText ← c.title
  let relativeUrl ← c.href
  let fullUrl := "https://internshala.com" ++ pyStrOption relativeUrl
  let companyName ← c.company
  let locs ← c.locations
  let salaryTextClean : Option String :=
    match c.salary with
    | .ok s => some s.trim
    | .error _ => none
  match mkJobItem titleText.trim companyName.trim (String.intercalate ", " locs)
      salaryTextClean fullUrl "Internshala" scraped_at with
  | .ok j => .ok j
  | .error _ => .error ()

/-- The extraction loop shared by `_parse_page` and `scrape`: for each card
in page order, attempt extraction; `except Exception: continue` skips a
failed card and moves to the next. -/
def parse_page_loop {α : Type} (extract : Card → Except Unit α) : List Card → List α
  | [] => []
  | c :: cs =>
    match extract c with
    | .ok j => j :: parse_page_loop extract cs
    | .error _ => parse_page_loop extract cs

/-- `_parse_page` (scheduler variant), given the job cards located on the
page (the `wait_for` timeout path, which returns `[]` before this loop, is
the `parsePage n = .ok []` case of the discovery model). -/
def parse_page (scraped_at : Nat) (cards : List Card) : List JobItem :=
  parse_page_loop (extract_card_scheduler scraped_at) cards

/-- The loop processes a concatenation of card lists independently. -/
theorem parse_page_loop_append {α : Type} (extract : Card → Except Unit α)
    (xs ys : List Card) :
    parse_page_loop extract (xs ++ ys) =
      parse_page_loop extract xs ++ parse_page_loop extract ys := by
  induction xs with
  | nil => simp [parse_page_loop]
  | cons c cs ih =>
    simp only [List.cons_append, parse_page_loop]
    rcases h : extract c with e | j <;> simp [ih]

/-- When every card extracts successfully, no card is skipped. -/
theorem parse_page_loop_length {α : Type} (extract : Card → Except Unit α)
    (xs : List Card) (h : ∀ x ∈ xs, (extract x).isOk) :
    (parse_page_loop extract xs).length = xs.length := by
  induction xs with
  | nil => simp [parse_page_loop]
  | cons c cs ih =>
    have hc := h c (by simp)
    rcases he : extract c with e | j
    · rw [he] at hc; simp [Except.isOk, Except.toBool] at hc
    · simp only [parse_page_loop, he, List.length_cons]
      rw [ih (fun x hx => h x (by simp [hx]))]

/-! ## Registry and strategy factory

`SITES_CONFIG` is a static dictionary from site id to that site's
parameters.  `scraper_factory` resolves a site id: the guarded variant
(`jobvago-scraper/run.py`, `jobvago-scheduler/function_app.py`) first checks
membership and raises `ValueError(f"Unknown site: '{site_name}'. No
configuration found.")`; the unguarded variant
(`jobvago-scheduler/run_scraper.py`) indexes the dictionary directly, so an
unknown id raises `KeyError(site_name)`.  Only after a successful lookup
does either variant call `importlib.import_module` / `getattr` and then
instantiate the class; the `FactoryEvent` trace records those attempts. -/

structure SiteConfig where
  module_path : String
  scraper_class_name : String
  base_url_template : Option String := none
  safety_page_limit : Option Nat := none
deriving DecidableEq, Repr

/-- `scraper_core/config.py` (scheduler). -/
def SITES_CONFIG_core : List (String × SiteConfig) :=
  [("internshala",
    { module_path := "scraper_core.spiders.internshala"
      scraper_class_name := "InternshalaScraper"
      safety_page_limit := some 500 })]

/-- `jobvago_scraper/config.py` (scraper). -/
def SITES_CONFIG_jobvago : List (String × SiteConfig) :=
  [("internshala",
    { module_path := "jobvago_scraper.spiders.internshala"
      scraper_class_name := "InternshalaScraper"
      base_url_template := some "https://internshala.com/jobs/page-\x7bpage_number\x7d"
      safety_page_limit := some 500 }),
   ("naukri",
    { module_path := "jobvago_scraper.spiders.naukri"
      scraper_class_name := "NaukriScraper"
      base_url_template := some "https://www.naukri.com/it-jobs-\x7bpage_number\x7d" })]

inductive FactoryError where
  /-- `ValueError` on an unknown site id (a `KeyError` in the unguarded
  variant); the spec's `ConfigurationError`. -/
  | configurationError (message : String)
  /-- `ImportError` when the binding cannot be resolved; the spec's
  `StrategyLoadError`. -/
  | strategyLoadError (message : String)
deriving DecidableEq, Repr

inductive FactoryEvent where
  /-- `importlib.import_module(module_path)` was attempted. -/
  | importAttempt (module_path : String)
  /-- `ScraperClass()` was called. -/
  | instantiation (class_name : String)
deriving DecidableEq, Repr

/-- The message of the guarded variant's `ValueError`. -/
def unknownSiteMessage (site_name : String) : String :=
  "Unknown site: '" ++ site_name ++ "'. No configuration found."

/-- `scraper_factory`, guarded variant.  `load` models
`import_module` + `getattr` (its error is the caught
`ImportError`/`AttributeError` text) and `instantiate` models
`ScraperClass()`. -/
def scraper_factory {σ τ : Type} (registry : List (String × SiteConfig))
    (load : String → String → Except String σ) (instantiate : σ → τ)
    (site_name : String) : Except FactoryError τ × List FactoryEvent :=
  match registry.lookup site_name with
  | none => (.error (.configurationError (unknownSiteMessage site_name)), [])
  | some config =>
    match load config.module_path config.scraper_class_name with
    | .error e =>
      (.error (.strategyLoadError
          ("Could not load scraper '" ++ config.scraper_class_name ++ "' from '" ++
            config.module_path ++ "'. Error: " ++ e)),
        [.importAttempt config.module_path])
    | .ok cls =>
      (.ok (instantiate cls),
        [.importAttempt config.module_path, .instantiation config.scraper_class_name])

/-- `scraper_factory`, unguarded variant (`run_scraper.py`): the dictionary
lookup itself raises `KeyError(site_name)`, whose message is the key; a load
failure is re-raised as-is (bare `raise`). -/
def scraper_factory_unguarded {σ τ : Type} (registry : List (String × SiteConfig))
    (load : String → String → Except String σ) (instantiate : σ → τ)
    (site_name : String) : Except FactoryError τ × List FactoryEvent :=
  match registry.lookup site_name with
  | none => (.error (.configurationError site_name), [])
  | some config =>
    match load config.module_path config.scraper_class_name with
    | .error e => (.error (.strategyLoadError e), [.importAttempt config.module_path])
    | .ok cls =>
      (.ok (instantiate cls),
        [.importAttempt config.module_path, .instantiation config.scraper_class_name])

/-! ## Orchestrators

`run_scraper.py main`: pre-flight `test_service_bus_connection` (raises
`ValueError` when `SERVICE_BUS_FQDN` is unset, and propagates connection
failures), then a per-site loop whose `except Exception` records
`"ERROR - See logs for details"` for the failed site and continues,
then a single dispatch of everything collected (skipped when empty), then
the summary.  Any exception out of the pre-flight reaches the outer
`except` and `exit(1)` runs before any site is attempted.

`run.py main` (scraper variant): no pre-flight; a per-site loop catching
only `(ValueError, ImportError)`; dispatch happens per site, and its
`send_jobs_to_queue` — finding `AZURE_SERVICE_BUS_FQDN` unset — logs an
error and `return`s without sending and without raising. -/

/-- Per-site outcome recorded in `scraping_summary`. -/
inductive SiteOutcome where
  /-- `"OK - Collected {n} jobs"`. -/
  | ok (count : Nat)
  /-- `"ERROR - See logs for details"`. -/
  | error
deriving DecidableEq, Repr

/-- The per-site loop shared by the scheduler orchestrators: returns
(all records collected, the summary in site order).  `runSite` is
`run_scraper_for_site`, whose failure (strategy load, browser, discovery)
surfaces as `.error msg`. -/
def runSites {α : Type} (runSite : String → Except String (List α)) :
    List String → List α × List (String × SiteOutcome)
  | [] => ([], [])
  | s :: ss =>
    match runSite s with
    | .ok jobs =>
      let rest := runSites runSite ss
      (jobs ++ rest.1, (s, .ok jobs.length) :: rest.2)
    | .error _ =>
      let rest := runSites runSite ss
      (rest.1, (s, .error) :: rest.2)

/-- Observable outcome of one `run_scraper.py main` run. -/
structure SchedulerRun (α : Type) where
  /-- Site ids whose scrape was started, in order. -/
  attempted : List String
  /-- Records handed to `send_jobs_to_queue` (empty also when dispatch was
  skipped because nothing was collected). -/
  dispatched : List α
  /-- The per-site summary. -/
  summary : List (String × SiteOutcome)
  /-- Process exit status. -/
  exitCode : Nat
deriving DecidableEq, Repr

/-- `run_scraper.py main`.  `fqdn` is `os.environ.get("SERVICE_BUS_FQDN")`;
`connectOk` is whether the pre-flight `ServiceBusClient` connection
succeeds once the address is present. -/
def run_scraper_main {α : Type} (fqdn : Option String) (connectOk : Bool)
    (sites : List String) (runSite : String → Except String (List α)) :
    SchedulerRun α :=
  match fqdn with
  | none =>
    -- test_service_bus_connection raises ValueError("SERVICE_BUS_FQDN is
    -- not configured."); main's outer except logs and calls exit(1).
    { attempted := [], dispatched := [], summary := [], exitCode := 1 }
  | some _ =>
    if connectOk then
      let r := runSites runSite sites
      { attempted := sites, dispatched := r.1, summary := r.2, exitCode := 0 }
    else
      { attempted := [], dispatched := [], summary := [], exitCode := 1 }

/-- `run.py send_jobs_to_queue`: with the endpoint address unset it prints
an error and returns, sending nothing; otherwise every record is sent. -/
def runpy_send {α : Type} (fqdn : Option String) (jobs : List α) : List α :=
  match fqdn with
  | none => []
  | some _ => jobs

/-- Observable outcome of one `run.py main` run. -/
structure ScraperRun (α : Type) where
  attempted : List String
  /-- `all_jobs` after the loop. -/
  collected : List α
  /-- Records actually transmitted to the queue. -/
  transmitted : List α
  /-- Whether an exception escaped `main`. -/
  errorRaised : Bool
  exitCode : Nat
deriving DecidableEq, Repr

/-- The per-site loop of `run.py main`: collect, and dispatch per site when
the site yielded records; `except (ValueError, ImportError)` skips a failed
site.  Returns (collected, transmitted). -/
def runpy_loop {α : Type} (fqdn : Option String)
    (runSite : String → Except String (List α)) : List String → List α × List α
  | [] => ([], [])
  | s :: ss =>
    match runSite s with
    | .ok jobs =>
      let rest := runpy_loop fqdn runSite ss
      (jobs ++ rest.1, runpy_send fqdn jobs ++ rest.2)
    | .error _ => runpy_loop fqdn runSite ss

/-- `run.py main`: no pre-flight check; the loop runs over every requested
site regardless of the environment, and the process exits 0. -/
def runpy_main {α : Type} (fqdn : Option String) (sites : List String)
    (runSite : String → Except String (List α)) : ScraperRun α :=
  let r := runpy_loop fqdn runSite sites
  { attempted := sites, collected := r.1, transmitted := r.2,
    errorRaised := false, exitCode := 0 }

/-- The Python exception kinds relevant to `run.py main`'s
`except (ValueError, ImportError)` clause: the two it catches, and
everything else (an `AttributeError`, a Playwright error raised during
discovery, ...), which it does not. -/
inductive PyError where
  /-- `ValueError` — e.g. the factory's unknown-site error; caught. -/
  | valueError (message : String)
  /-- `ImportError` — the factory's load failure; caught. -/
  | importError (message : String)
  /-- Any other exception; not caught by `run.py`'s loop. -/
  | otherError (message : String)
deriving DecidableEq, Repr

/-- The per-site loop of `run.py main` with the exception taxonomy
explicit (`runpy_loop` is its restriction to runs whose site failures are
all of the caught kinds).  `except (ValueError, ImportError)` prints and
continues — `run.py` keeps no per-site summary in which to record the
failure — while any other exception propagates out of `main` and aborts
the run, so later sites are not attempted.  Returns the pair
(`all_jobs` collected, records transmitted) accumulated before any
abort, together with the escaping exception if one occurred. -/
def runpy_loop_exc {α : Type} (fqdn : Option String)
    (runSite : String → Except PyError (List α)) :
    List String → (List α × List α) × Option PyError
  | [] => (([], []), none)
  | s :: ss =>
    match runSite s with
    | .ok jobs =>
      let rest := runpy_loop_exc fqdn runSite ss
      ((jobs ++ rest.1.1, runpy_send fqdn jobs ++ rest.1.2), rest.2)
    | .error (.valueError _) => runpy_loop_exc fqdn runSite ss
    | .error (.importError _) => runpy_loop_exc fqdn runSite ss
    | .error (.otherError m) => (([], []), some (.otherError m))

/-! ## Concrete cards for witnesses -/

/-- A card all of whose lookups succeed. -/
def okCard : Card :=
  { title := .ok "Engineer", href := .ok (some "/job/1"), company := .ok "Acme"
    locations := .ok ["Mumbai"], salary := .ok "5 LPA" }

/-- A card whose salary lookup raises and whose other lookups succeed. -/
def badCard : Card :=
  { title := .ok "Engineer", href := .ok (some "/job/2"), company := .ok "Acme"
    locations := .ok ["Delhi"], salary := .error () }

/-- With the endpoint none of the loop transmits anything. -/
theorem runpy_loop_transmitted_none {α : Type}
    (runSite : String → Except String (List α)) :
    ∀ sites, (runpy_loop (α := α) none runSite sites).2 = [] := by
  intro sites
  induction sites with
  | nil => simp [runpy_loop]
  | cons s ss ih =>
    simp only [runpy_loop]
    rcases h : runSite s with e | jobs <;> simp [runpy_send, ih]

/-- With the endpoint set, everything collected is transmitted. -/
theorem runpy_loop_transmitted_some {α : Type} (f : String)
    (runSite : String → Except String (List α)) :
    ∀ sites, (runpy_loop (α := α) (some f) runSite sites).2 =
      (runpy_loop (some f) runSite sites).1 := by
  intro sites
  induction sites with
  | nil => simp [runpy_loop]
  | cons s ss ih =>
    simp only [runpy_loop]
    rcases h : runSite s with e | jobs <;> simp [runpy_send, ih]

/-- The scheduler summary names every requested site, in order, whatever
each site's outcome. -/
theorem runSites_summary_sites {α : Type}
    (runSite : String → Except String (List α)) :
    ∀ sites, ((runSites runSite sites).2.map Prod.fst) = sites := by
  intro sites
  induction sites with
  | nil => simp [runSites]
  | cons s ss ih =>
    simp only [runSites]
    rcases h : runSite s with e | jobs <;> simp [ih]

/-! ## Claims -/

/-- C1: for every finite input sequence of records and every envelope
capacity (count or byte budget, with no single record exceeding the
capacity), the dispatch loop of `send_jobs_to_queue` emits a sequence of
envelopes whose concatenation equals the input sequence exactly — same
records, same order, none dropped or duplicated — with no envelope
exceeding capacity; with a capacity of 3 records and 7 input records it
produces exactly 3 envelopes of sizes [3, 3, 1] in that order, the
non-empty final envelope flushed exactly once at the end. -/
theorem C1_batcher_completeness {α : Type} (size : α → Nat) (cap : Nat)
    (jobs : List α) (hfit : ∀ j ∈ jobs, size j ≤ cap) :
    (∃ bs, send_jobs_to_queue size cap jobs = .ok bs ∧
        bs.flatten = jobs ∧ ∀ b ∈ bs, (b.map size).sum ≤ cap) ∧
    send_jobs_to_queue (fun _ : Nat => 1) 3 (List.range 7) =
      .ok [[0, 1, 2], [3, 4, 5], [6]] ∧
    (send_jobs_to_queue (fun _ : Nat => 1) 3 (List.range 7)).map
        (List.map List.length) = .ok [3, 3, 1] := by
  refine ⟨?_, by rfl, by rfl⟩
  obtain ⟨bs, h1, h2, h3⟩ := sendLoop_spec size cap jobs [] (by simp) hfit
  exact ⟨bs, h1, by simpa using h2, h3⟩

/-- Witness for C1: counting capacity 3, records 0..6. -/
theorem C1_batcher_completeness_witness :
    send_jobs_to_queue (fun _ : Nat => 1) 3 (List.range 7) =
      .ok [[0, 1, 2], [3, 4, 5], [6]] :=
  (C1_batcher_completeness (fun _ => 1) 3 (List.range 7) (by decide)).2.1

/-- C2: for a site whose successive pages parse to 5, 5 and 0 records, one
call to `discover_jobs` yields exactly 10 records (pages 1 and 2 in order)
and terminates after navigating to the third page — the zero-valid-cards
page — without fetching any further page and without reaching the
configured page limit. -/
theorem C2_pagination_stops_on_empty_page {α : Type} (nav : Nat → Bool)
    (parsePage : Nat → Except Unit (List α)) (limit : Nat) (a b : List α)
    (h1 : parsePage 1 = .ok a) (h2 : parsePage 2 = .ok b)
    (h3 : parsePage 3 = .ok [])
    (ha : a.length = 5) (hb : b.length = 5)
    (hnav : ∀ n, nav n = true) (hlim : 3 < limit) :
    (discover_jobs limit nav parsePage).records = a ++ b ∧
    (discover_jobs limit nav parsePage).records.length = 10 ∧
    (discover_jobs limit nav parsePage).pagesFetched = 3 ∧
    (discover_jobs limit nav parsePage).pagesFetched < limit := by
  obtain ⟨k, rfl⟩ : ∃ k, limit = k + 1 + 1 + 1 := ⟨limit - 3, by omega⟩
  obtain ⟨a0, as, rfl⟩ : ∃ x xs, a = x :: xs := by
    cases a with
    | nil => simp at ha
    | cons x xs => exact ⟨x, xs, rfl⟩
  obtain ⟨b0, bs, rfl⟩ : ∃ x xs, b = x :: xs := by
    cases b with
    | nil => simp at hb
    | cons x xs => exact ⟨x, xs, rfl⟩
  have hrun : discoverLoop nav parsePage 1 (k + 1 + 1 + 1) =
      ((a0 :: as) ++ ((b0 :: bs) ++ []), 3, false) := by
    simp [discoverLoop, hnav, h1, h2, h3]
  have hrec : (discover_jobs (k + 1 + 1 + 1) nav parsePage).records =
      (a0 :: as) ++ (b0 :: bs) := by
    simp [discover_jobs, hrun]
  have hp : (discover_jobs (k + 1 + 1 + 1) nav parsePage).pagesFetched = 3 := by
    simp [discover_jobs, hrun]
  refine ⟨hrec, ?_, hp, ?_⟩
  · rw [hrec]
    simp only [List.length_append, List.length_cons] at *
    omega
  · rw [hp]; omega

/-- Witness for C2: two five-record pages followed by an empty page, with
the configured limit 500. -/
theorem C2_pagination_stops_on_empty_page_witness :
    (discover_jobs 500 (fun _ => true)
        (fun n => if n = 1 then .ok [0, 1, 2, 3, 4]
          else if n = 2 then .ok [5, 6, 7, 8, 9]
          else (.ok [] : Except Unit (List Nat)))).records =
        [0, 1, 2, 3, 4] ++ [5, 6, 7, 8, 9] ∧
    (discover_jobs 500 (fun _ => true)
        (fun n => if n = 1 then .ok [0, 1, 2, 3, 4]
          else if n = 2 then .ok [5, 6, 7, 8, 9]
          else (.ok [] : Except Unit (List Nat)))).records.length = 10 ∧
    (discover_jobs 500 (fun _ => true)
        (fun n => if n = 1 then .ok [0, 1, 2, 3, 4]
          else if n = 2 then .ok [5, 6, 7, 8, 9]
          else (.ok [] : Except Unit (List Nat)))).pagesFetched = 3 ∧
    (discover_jobs 500 (fun _ => true)
        (fun n => if n = 1 then .ok [0, 1, 2, 3, 4]
          else if n = 2 then .ok [5, 6, 7, 8, 9]
          else (.ok [] : Except Unit (List Nat)))).pagesFetched < 500 :=
  C2_pagination_stops_on_empty_page (fun _ => true) _ 500
    [0, 1, 2, 3, 4] [5, 6, 7, 8, 9] rfl rfl rfl
    (by decide) (by decide) (fun _ => rfl) (by decide)

/-- C3: for every site configuration with positive `page_limit`,
`discover_jobs` navigates to at most `page_limit` pages (and, being a total
function of its inputs, always terminates with a finite record sequence);
with `page_limit` 3 and pages that always parse to at least one record,
discovery stops after exactly 3 pages despite continued non-empty
results. -/
theorem C3_safety_ceiling {α : Type} (nav : Nat → Bool)
    (parsePage : Nat → Except Unit (List α)) (limit : Nat) (_hpos : 0 < limit) :
    (discover_jobs limit nav parsePage).pagesFetched ≤ limit ∧
    ((∀ n, nav n = true) → (∀ n, ∃ j js, parsePage n = .ok (j :: js)) →
      (discover_jobs 3 nav parsePage).pagesFetched = 3) := by
  constructor
  · simpa [discover_jobs] using discoverLoop_pages_le nav parsePage limit 1
  · intro hnav hne
    simpa [discover_jobs] using discoverLoop_pages_eq nav parsePage hnav hne 3 1

/-- Witness for C3: limit 3 against a site whose every page has one
record. -/
theorem C3_safety_ceiling_witness :
    (discover_jobs 3 (fun _ => true)
        (fun _ => (.ok [0] : Except Unit (List Nat)))).pagesFetched = 3 :=
  (C3_safety_ceiling (fun _ => true) (fun _ => .ok [0]) 3 (by decide)).2
    (fun _ => rfl) (fun _ => ⟨0, [], rfl⟩)

/-- C4: for every site id not present in the registry, the strategy factory
returns the configuration error naming that id — the guarded variant's
message is `Unknown site: '<id>'. No configuration found.`, the unguarded
variant's `KeyError` carries the id itself — and no module import or class
instantiation is attempted (the event trace is empty). -/
theorem C4_unknown_site {σ τ : Type} (registry : List (String × SiteConfig))
    (load : String → String → Except String σ) (instantiate : σ → τ)
    (site_name : String) (h : registry.lookup site_name = none) :
    scraper_factory registry load instantiate site_name =
      (.error (.configurationError (unknownSiteMessage site_name)), []) ∧
    unknownSiteMessage site_name =
      "Unknown site: '" ++ site_name ++ "'. No configuration found." ∧
    scraper_factory_unguarded registry load instantiate site_name =
      (.error (.configurationError site_name), []) := by
  refine ⟨?_, rfl, ?_⟩ <;>
    simp [scraper_factory, scraper_factory_unguarded, h]

/-- Witness for C4: `linkedin` is not configured. -/
theorem C4_unknown_site_witness :
    scraper_factory SITES_CONFIG_jobvago (fun _ _ => (.ok () : Except String Unit))
        id "linkedin" =
      (.error (.configurationError (unknownSiteMessage "linkedin")), []) :=
  (C4_unknown_site SITES_CONFIG_jobvago (fun _ _ => .ok ()) id "linkedin"
    (by decide)).1

/-- C5: on a page whose card list is any `front ++ [failing card] ++ back`
where every card of `front` and `back` extracts successfully and the middle
card's extraction raises, `_parse_page` returns exactly the records of the
other cards in card order — the failing card is skipped and the cards after
it are still processed. -/
theorem C5_per_card_isolation (t : Nat) (front back : List Card) (c : Card)
    (hc : extract_card_scheduler t c = .error ())
    (hf : ∀ x ∈ front, (extract_card_scheduler t x).isOk)
    (hb : ∀ x ∈ back, (extract_card_scheduler t x).isOk) :
    parse_page t (front ++ c :: back) = parse_page t front ++ parse_page t back ∧
    (parse_page t (front ++ c :: back)).length = front.length + back.length := by
  have h1 : parse_page t (front ++ c :: back)
      = parse_page t front ++ parse_page t back := by
    unfold parse_page
    rw [parse_page_loop_append]
    congr 1
    simp [parse_page_loop, hc]
  refine ⟨h1, ?_⟩
  rw [h1]
  simp [parse_page, parse_page_loop_length _ _ hf, parse_page_loop_length _ _ hb]

/-- Witness for C5: five cards, the one at index 2 failing, yield four
records with cards 3 and 4 still processed. -/
theorem C5_per_card_isolation_witness :
    parse_page 0 ([okCard, okCard] ++ badCard :: [okCard, okCard]) =
      parse_page 0 [okCard, okCard] ++ parse_page 0 [okCard, okCard] ∧
    (parse_page 0 ([okCard, okCard] ++ badCard :: [okCard, okCard])).length = 4 :=
  C5_per_card_isolation 0 [okCard, okCard] [okCard, okCard] badCard rfl
    (by decide) (by decide)

/-- C6 counterexample: `run.py main`'s loop catches only
`(ValueError, ImportError)`.  With the endpoint set, two configured sites,
the first raising a generic discovery exception (e.g. the
`AttributeError` from calling the missing `discover_jobs` of the
jobvago-scraper `InternshalaScraper`, or any Playwright error) and the
second one able to succeed with one record, the exception escapes the
loop: the second site is never attempted, zero records are dispatched,
and there is no per-site summary in which anything could be recorded —
the claim as stated is false of this cited source. -/
theorem C6_per_site_isolation_counterexample :
    runpy_loop_exc (α := Nat) (some "sb.example.net")
        (fun s => if s = "siteA"
          then .error (.otherError "AttributeError: discover_jobs")
          else .ok [7])
        ["siteA", "siteB"] =
      (([], []), some (.otherError "AttributeError: discover_jobs")) := by
  rfl

/-- C6 amended: in the scheduler orchestrators
(`run_scraper.py`/`function_app.py`), whose loops catch `Exception` and
keep a per-site summary, any exception from a site's resolution or
discovery is recorded as an error for that site id and processing
proceeds; with two sites where the first raises and the second succeeds
with `jobs`, the summary marks the first as an error and exactly the
`jobs` records are dispatched overall, and every requested site appears in
the summary.  The `run.py` loop instead catches only
`(ValueError, ImportError)` — such factory failures are skipped with a log
line and no summary entry — while any other exception from the first
site's discovery propagates, aborting the run with nothing dispatched and
the second site never attempted. -/
theorem C6_per_site_isolation {α : Type}
    (runSite : String → Except String (List α))
    (runSiteP : String → Except PyError (List α))
    (s₁ s₂ : String) (e : String) (jobs : List α) (fqdn : String)
    (h1 : runSite s₁ = .error e) (h2 : runSite s₂ = .ok jobs)
    (h3 : runSiteP s₂ = .ok jobs) :
    runSites runSite [s₁, s₂] = (jobs, [(s₁, .error), (s₂, .ok jobs.length)]) ∧
    (runSites runSite [s₁, s₂]).1.length = jobs.length ∧
    (∀ sites : List String, ((runSites runSite sites).2.map Prod.fst) = sites) ∧
    (∀ m, runSiteP s₁ = .error (.valueError m) →
      runpy_loop_exc (some fqdn) runSiteP [s₁, s₂] = ((jobs, jobs), none)) ∧
    (∀ m, runSiteP s₁ = .error (.importError m) →
      runpy_loop_exc (some fqdn) runSiteP [s₁, s₂] = ((jobs, jobs), none)) ∧
    (∀ m, runSiteP s₁ = .error (.otherError m) →
      runpy_loop_exc (some fqdn) runSiteP [s₁, s₂] = (([], []), some (.otherError m))) := by
  have hr : runSites runSite [s₁, s₂] =
      (jobs, [(s₁, .error), (s₂, .ok jobs.length)]) := by
    simp [runSites, h1, h2]
  refine ⟨hr, by rw [hr], runSites_summary_sites runSite, ?_, ?_, ?_⟩ <;>
    intro m hm <;> simp [runpy_loop_exc, runpy_send, hm, h3]

/-- Witness for C6 amended: a failing site followed by a three-record
site, through both the scheduler loop and `run.py`'s loop with the failure
a caught `ValueError`. -/
theorem C6_per_site_isolation_witness :
    runSites (fun s => if s = "bad" then .error "boom" else .ok [1, 2, 3])
        ["bad", "good"] =
      ([1, 2, 3], [("bad", .error), ("good", .ok 3)]) ∧
    runpy_loop_exc (some "sb.example.net")
        (fun s => if s = "bad" then .error (.valueError "boom") else .ok [1, 2, 3])
        ["bad", "good"] = (([1, 2, 3], [1, 2, 3]), none) :=
  ⟨(C6_per_site_isolation
      (fun s => if s = "bad" then .error "boom" else .ok [1, 2, 3])
      (fun s => if s = "bad" then .error (.valueError "boom") else .ok [1, 2, 3])
      "bad" "good" "boom" [1, 2, 3] "sb.example.net" rfl rfl rfl).1,
   (C6_per_site_isolation
      (fun s => if s = "bad" then .error "boom" else .ok [1, 2, 3])
      (fun s => if s = "bad" then .error (.valueError "boom") else .ok [1, 2, 3])
      "bad" "good" "boom" [1, 2, 3] "sb.example.net" rfl rfl rfl).2.2.2.1 "boom" rfl⟩

/-- C7 counterexample: in the `run.py` entrypoint there is no pre-flight
check — with the endpoint address absent and one configured site yielding
one record, the site is still attempted, the collected record is neither
transmitted nor reported through an exception (`send_jobs_to_queue` logs
and returns), and the process exits 0.  This contradicts both halves of the
claim as stated. -/
theorem C7_missing_endpoint_counterexample :
    (runpy_main (α := Nat) none ["internshala"] (fun _ => .ok [7])).attempted
        = ["internshala"] ∧
    (runpy_main (α := Nat) none ["internshala"] (fun _ => .ok [7])).collected = [7] ∧
    (runpy_main (α := Nat) none ["internshala"] (fun _ => .ok [7])).transmitted = [] ∧
    (runpy_main (α := Nat) none ["internshala"] (fun _ => .ok [7])).errorRaised
        = false ∧
    (runpy_main (α := Nat) none ["internshala"] (fun _ => .ok [7])).exitCode = 0 := by
  refine ⟨rfl, rfl, rfl, rfl, rfl⟩

/-- C7 amended: in the scheduler orchestrator (`run_scraper.py`, and
equally `function_app.py`), a missing endpoint address makes the pre-flight
check raise, the run exits non-zero, and no site is attempted nor any
record dispatched; once the endpoint is present everything collected is
dispatched.  The `run.py` entrypoint instead runs all sites regardless,
transmits everything exactly when the endpoint is present, and with it
absent transmits nothing while still exiting 0 — collected records are
dropped with only a log line. -/
theorem C7_missing_endpoint_amended {α : Type} (connectOk : Bool)
    (sites : List String) (runSite : String → Except String (List α)) :
    (run_scraper_main none connectOk sites runSite).exitCode = 1 ∧
    (run_scraper_main none connectOk sites runSite).attempted = [] ∧
    (run_scraper_main none connectOk sites runSite).dispatched = [] ∧
    (∀ f, (run_scraper_main (some f) true sites runSite).dispatched =
      (runSites runSite sites).1) ∧
    (∀ f, (runpy_main (some f) sites runSite).transmitted =
      (runpy_main (some f) sites runSite).collected) ∧
    (runpy_main none sites runSite).transmitted = [] ∧
    (runpy_main none sites runSite).attempted = sites ∧
    (runpy_main none sites runSite).exitCode = 0 := by
  refine ⟨rfl, rfl, rfl, fun f => rfl, fun f => ?_, ?_, rfl, rfl⟩
  · simpa [runpy_main] using runpy_loop_transmitted_some f runSite sites
  · simpa [runpy_main] using runpy_loop_transmitted_none runSite sites

/-- C8 counterexample: when the parse step raises on the first page (with
navigation succeeding and the configured limit 500), the exception escapes
`discover_jobs` and the page acquired at the start is never closed — the
event trace is `[opened]` with no `closed`, because `page.close()` sits
after the loop with no `try/finally`. -/
theorem C8_page_close_counterexample :
    (discover_jobs 500 (fun _ => true)
        (fun _ => (.error () : Except Unit (List Nat)))).raised = true ∧
    (discover_jobs 500 (fun _ => true)
        (fun _ => (.error () : Except Unit (List Nat)))).events
      = [PageEvent.opened] ∧
    PageEvent.closed ∉ (discover_jobs 500 (fun _ => true)
        (fun _ => (.error () : Except Unit (List Nat)))).events := by
  refine ⟨rfl, rfl, by decide⟩

/-- C8 amended: `discover_jobs` acquires exactly one page at the start and
closes it, exactly once and as the final event, on every exit path on which
no exception escapes the pagination loop — normal end-of-results,
page-limit exhaustion, and navigation failure (which is caught inside the
loop) are all such paths, and a parse step that never raises guarantees
one; but when an exception escapes the parse step it propagates without the
close running. -/
theorem C8_page_close_amended {α : Type} (limit : Nat) (nav : Nat → Bool)
    (parsePage : Nat → Except Unit (List α)) :
    ((discover_jobs limit nav parsePage).raised = false →
      (discover_jobs limit nav parsePage).events
        = [PageEvent.opened, PageEvent.closed]) ∧
    ((discover_jobs limit nav parsePage).raised = true →
      (discover_jobs limit nav parsePage).events = [PageEvent.opened]) ∧
    ((∀ n, parsePage n ≠ .error ()) →
      (discover_jobs limit nav parsePage).raised = false ∧
      (discover_jobs limit nav parsePage).events
        = [PageEvent.opened, PageEvent.closed]) := by
  refine ⟨fun h => ?_, fun h => ?_, fun hok => ?_⟩
  · simp [discover_jobs] at h ⊢; simp [h]
  · simp [discover_jobs] at h ⊢; simp [h]
  · have := discoverLoop_no_raise nav parsePage hok limit 1
    constructor
    · simpa [discover_jobs] using this
    · simp [discover_jobs] at this ⊢; simp [this]

/-- Witness for C8 amended: an immediately-empty site closes its page. -/
theorem C8_page_close_amended_witness :
    (discover_jobs 500 (fun _ => true)
        (fun _ => (.ok [] : Except Unit (List Nat)))).events
      = [PageEvent.opened, PageEvent.closed] :=
  ((C8_page_close_amended 500 (fun _ => true) (fun _ => .ok []))).2.2
    (fun _ => by simp) |>.2

/-- C9 counterexample: a `JobItem` with empty `title`, `company_name` and
`location` is perfectly constructible — the pydantic fields are plain `str`
with no non-emptiness constraint — so "a record with an empty required
text field is never constructible" fails. -/
theorem C9_empty_fields_counterexample :
    mkJobItem "" "" "" none "https://internshala.com/jobs" "internshala" 0 =
      .ok { title := "", company_name := "", location := ""
            raw_salary_text := none
            original_url := "https://internshala.com/jobs"
            description := none, skills := none, posted_date := none
            scraped_at := 0, source := "internshala" } := by
  rfl

/-- C9 amended: every constructible `JobItem` has `title`, `company_name`,
`location`, `original_url` and `source` populated with the supplied values
(they are required constructor arguments) and `original_url` an absolute
`http`/`https` URI — construction with a URL failing that validation, in
particular a relative path, raises instead — but the text fields may be
empty, and immutability is a pydantic default the model does not opt into. -/
theorem C9_jobitem_validation (title company location : String)
    (sal : Option String) (url source : String) (t : Nat) :
    (∀ j, mkJobItem title company location sal url source t = .ok j →
      j.title = title ∧ j.company_name = company ∧ j.location = location ∧
      j.raw_salary_text = sal ∧ j.original_url = url ∧ j.source = source ∧
      isAbsoluteHttpUrl url = true) ∧
    (isAbsoluteHttpUrl url = false →
      mkJobItem title company location sal url source t =
        .error ("invalid URL: " ++ url)) ∧
    isAbsoluteHttpUrl "/jobs/page-1" = false ∧
    isAbsoluteHttpUrl "https://internshala.com/jobs/page-1" = true := by
  refine ⟨?_, fun hv => by simp [mkJobItem, hv], by decide, by decide⟩
  intro j hj
  unfold mkJobItem at hj
  by_cases hv : isAbsoluteHttpUrl url
  · simp only [hv, if_true, Except.ok.injEq] at hj
    subst hj
    simp [hv]
  · simp [hv] at hj

/-- Witness for C9 amended: a relative URL is rejected. -/
theorem C9_jobitem_validation_witness :
    mkJobItem "T" "C" "Mumbai" none "/jobs/page-1" "internshala" 0 =
      .error ("invalid URL: " ++ "/jobs/page-1") :=
  (C9_jobitem_validation "T" "C" "Mumbai" none "/jobs/page-1" "internshala" 0).2.1
    (by decide)

/-- Any URL the Internshala extraction builds is absolute. -/
theorem isAbsoluteHttpUrl_append_internshala (x : String) :
    isAbsoluteHttpUrl ("https://internshala.com" ++ x) = true := by
  have hdata : ("https://internshala.com" ++ x).data
      = "https://internshala.com".data ++ x.data := String.data_append ..
  unfold isAbsoluteHttpUrl
  rw [hdata]
  have hpre : "https://".data.isPrefixOf
      ("https://internshala.com".data ++ x.data) = true := by
    rw [List.isPrefixOf_iff_prefix]
    exact (show "https://".data <+: "https://internshala.com".data by decide).trans
      (List.prefix_append _ _)
  have hlen : 8 < ("https://internshala.com".data ++ x.data).length := by
    rw [List.length_append]
    have h23 : "https://internshala.com".data.length = 23 := by decide
    omega
  simp [hpre, hlen]

/-- C10: for a card whose required lookups (title, href, company,
locations) all succeed but whose salary element is absent/unreadable, the
scheduler variant's unguarded salary lookup makes the whole card fail — it
contributes no record at all — while the scraper variant guards the lookup
and emits the record with `raw_salary_text` absent. -/
theorem C10_scheduler_salary_skip (t : Nat) (c : Card) (ti co : String)
    (href : Option String) (locs : List String)
    (h1 : c.title = .ok ti) (h2 : c.href = .ok href) (h3 : c.company = .ok co)
    (h4 : c.locations = .ok locs) (h5 : c.salary = .error ()) :
    extract_card_scheduler t c = .error () ∧
    ∃ j, extract_card_scraper t c = .ok j ∧ j.raw_salary_text = none ∧
      j.title = ti.trim ∧ j.company_name = co.trim := by
  constructor
  · simp only [extract_card_scheduler, h1, h2, h3, h4, h5]
    rfl
  · refine ⟨JobItem.mk ti.trim co.trim (String.intercalate ", " locs) none
        ("https://internshala.com" ++ pyStrOption href) none none none t
        "Internshala", ?_, rfl, rfl, rfl⟩
    simp [extract_card_scraper, h1, h2, h3, h4, h5, mkJobItem,
      isAbsoluteHttpUrl_append_internshala]
    rfl

/-- Witness for C10: the salary-less card is skipped by the scheduler
variant and kept (with no salary) by the scraper variant. -/
theorem C10_scheduler_salary_skip_witness :
    extract_card_scheduler 0 badCard = .error () ∧
    ∃ j, extract_card_scraper 0 badCard = .ok j ∧ j.raw_salary_text = none ∧
      j.title = "Engineer".trim ∧ j.company_name = "Acme".trim :=
  C10_scheduler_salary_skip 0 badCard "Engineer" "Acme" (some "/job/2") ["Delhi"]
    rfl rfl rfl rfl rfl

end Jobvago
